import Mathlib

set_option autoImplicit false

/-!
Shallow embedding of the sacred SQL observer persistence model
(`sacred/observers/sql_bases.py`, `sacred/observers/testrail.py`) and proofs
about its get-or-create registries, metric series store, run projection and
heartbeat protocol.

Python strings are modelled as `List Char`; the SQLAlchemy session is a record
of per-table row lists (lookups see every pending row, matching autoflush
visibility); the filesystem is a partial map from path to content; the
content-digest function is a parameter, since the spec guarantees only that it
is a pure function of the content.
-/

namespace Sacred

/-- Python strings are modelled as lists of characters. -/
abbrev Str := List Char

/-- Injects a Lean string literal into the model's string type. -/
def str (s : String) : Str := s.data

/-- A row of the `source` table (`sql_bases.Source`). -/
structure SourceRow where
  filename : Str
  md5sum : Str
  content : Str
  deriving Repr, DecidableEq

/-- A row of the `resource` table (`sql_bases.Resource`). -/
structure ResourceRow where
  filename : Str
  md5sum : Str
  content : Str
  deriving Repr, DecidableEq

/-- A row of the `repository` table (`sql_bases.Repository`). -/
structure RepoRow where
  url : Str
  commit : Str
  dirty : Bool
  deriving Repr, DecidableEq

/-- A row of the `dependency` table (`sql_bases.Dependency`). -/
structure DepRow where
  name : Str
  version : Str
  deriving Repr, DecidableEq

/-- A row of the `host` table (`sql_bases.Host`). -/
structure HostRow where
  cpu : Str
  hostname : Str
  os : Str
  os_info : Str
  python_version : Str
  deriving Repr, DecidableEq

/-- A row of the `artifact` table (`sql_bases.Artifact`). -/
structure ArtifactRow where
  artifact_id : Nat
  filename : Str
  content : Str
  deriving Repr, DecidableEq

/-- A row of the `experiment` table (`sql_bases.Experiment`), with its
many-to-many relationship collections resolved. -/
structure ExpRow where
  name : Str
  md5sum : Str
  base_dir : Str
  sources : List SourceRow
  repositories : List RepoRow
  dependencies : List DepRow
  deriving Repr, DecidableEq

/-- A row of the `metric` table (`sql_bases.Metric`) together with its three
parallel series tables (`metric_step`, `metric_value`, `metric_timestamp`,
kept in insertion order) and its `metric_association` edges (`depends_on`,
stored as the ids of the referenced metrics). Step and measurement values are
modelled as integers (the stored floats of the observed runs), timestamps as
naturals (epoch instants). -/
structure MetricRow where
  metric_id : Nat
  run_id : Str
  name : Str
  units : Str
  steps : List Int
  values : List Int
  timestamps : List Nat
  depends_on : List Nat
  deriving Repr, DecidableEq

/-- The shared SQLAlchemy session, modelled as the rows visible to queries.
Pending and flushed rows are not distinguished: a query sees every row, which
matches autoflush visibility inside one transaction. `nextMetricId` models the
autoincrement counter behind `Metric.metric_id`. -/
structure Session where
  sources : List SourceRow
  resources : List ResourceRow
  repositories : List RepoRow
  dependencies : List DepRow
  experiments : List ExpRow
  metrics : List MetricRow
  nextMetricId : Nat
  deriving Repr, DecidableEq

/-- The session with no rows. -/
def Session.empty : Session := ⟨[], [], [], [], [], [], 0⟩

/-- The filesystem as seen through `open` and the digest helper: a partial map
from path to file content. -/
def Disk := Str → Option Str

/-- Failures surfaced synchronously to the caller of an observer event. -/
inductive SqlErr where
  | fileNotFound : Str → SqlErr
  | md5Mismatch : Str → Str → Str → SqlErr
  | badPayload : SqlErr
  deriving Repr, DecidableEq

instance {ε α : Type} [DecidableEq ε] [DecidableEq α] : DecidableEq (Except ε α) :=
  fun a b =>
    match a, b with
    | .ok x, .ok y =>
      if h : x = y then .isTrue (by rw [h]) else .isFalse (by intro hc; cases hc; exact h rfl)
    | .error x, .error y =>
      if h : x = y then .isTrue (by rw [h]) else .isFalse (by intro hc; cases hc; exact h rfl)
    | .ok _, .error _ => .isFalse (by intro hc; cases hc)
    | .error _, .ok _ => .isFalse (by intro hc; cases hc)

namespace Dependency

/-- Model of `str.partition` specialised to the literal separator `"=="` used
at its only call site (`Dependency.get_or_create`): returns the text before
and after the first occurrence of `"=="`, or `none` when the separator does
not occur (Python then yields `(s, "", "")`). -/
def partitionEq : Str → Option (Str × Str)
  | [] => none
  | [_] => none
  | c1 :: c2 :: rest =>
    if c1 = '=' ∧ c2 = '=' then some ([], rest)
    else
      match partitionEq (c2 :: rest) with
      | some p => some (c1 :: p.1, p.2)
      | none => none

/-- `sql_bases.Dependency.get_or_create`: parse `dep` as `name==version` at
the first `"=="`, look the pair up in the session, return the existing row or
a fresh one. -/
def get_or_create (dep : Str) (session : Session) : DepRow :=
  let p : Str × Str :=
    match partitionEq dep with
    | some q => q
    | none => (dep, [])
  match session.dependencies.find? (fun r => decide (r.name = p.1 ∧ r.version = p.2)) with
  | some r => r
  | none => ⟨p.1, p.2⟩

/-- `sql_bases.Dependency.to_json`: renders the row back to `name==version`. -/
def to_json (d : DepRow) : Str := d.name ++ '=' :: '=' :: d.version

/-- Inserts a dependency row unless one with the same `(name, version)`
identity is already present; models the cascading `session.add` through which
rows returned by `get_or_create` become persistent. -/
def addRow (r : DepRow) (s : Session) : Session :=
  if s.dependencies.any (fun x => decide (x.name = r.name ∧ x.version = r.version)) then s
  else { s with dependencies := s.dependencies ++ [r] }

end Dependency

/-- Model of `os.path.join basedir filename` for the relative filenames
observed here. -/
def pathJoin (basedir filename : Str) : Str := basedir ++ '/' :: filename

/-- Modelled from the spec: `sacred.dependencies.get_digest` is not under
src/; per the spec's external-interface contract ("Digest function: content →
fixed-length hex digest string") it reads the file at `path` and returns the
digest of its content. The digest function itself is the `md5` parameter:
the spec guarantees only that it is a pure function of the content. -/
def get_digest (md5 : Str → Str) (disk : Disk) (path : Str) : Except SqlErr Str :=
  match disk path with
  | none => .error (.fileNotFound path)
  | some c => .ok (md5 c)

namespace Source

/-- `sql_bases.Source.get_or_create`: look `(filename, md5sum)` up in the
session and return a hit untouched; on a miss recompute the digest of
`basedir/filename` from disk, fail on a mismatch (the `assert`), otherwise
read the file and return a new row holding its content. -/
def get_or_create (md5 : Str → Str) (disk : Disk) (filename md5sum : Str)
    (session : Session) (basedir : Str) : Except SqlErr SourceRow :=
  match session.sources.find?
      (fun r => decide (r.filename = filename ∧ r.md5sum = md5sum)) with
  | some r => .ok r
  | none =>
    match get_digest md5 disk (pathJoin basedir filename) with
    | .error e => .error e
    | .ok md5sum' =>
      if md5sum' = md5sum then
        match disk (pathJoin basedir filename) with
        | none => .error (.fileNotFound (pathJoin basedir filename))
        | some content => .ok ⟨filename, md5sum, content⟩
      else .error (.md5Mismatch filename md5sum md5sum')

/-- Inserts a source row unless one with the same `(filename, md5sum)`
identity is already present; models the cascading `session.add` through which
rows returned by `get_or_create` become persistent (adding an
already-persistent row is a no-op). -/
def addRow (r : SourceRow) (s : Session) : Session :=
  if s.sources.any (fun x => decide (x.filename = r.filename ∧ x.md5sum = r.md5sum)) then s
  else { s with sources := s.sources ++ [r] }

/-- `get_or_create` followed by the caller's `session.add`. Modelled from the
spec: the caller (`SqlObserver.started_event`, not under src/) makes the
returned row persistent in the shared session. -/
def get_or_create_add (md5 : Str → Str) (disk : Disk) (filename md5sum : Str)
    (session : Session) (basedir : Str) : Except SqlErr (SourceRow × Session) :=
  (get_or_create md5 disk filename md5sum session basedir).map fun r => (r, addRow r session)

end Source

namespace Resource

/-- `sql_bases.Resource.get_or_create`: the digest of `filename` is
recomputed from the current on-disk content first, then `(filename, digest)`
is looked up in the session; on a miss the file is read again and a new row
holding its content is returned. -/
def get_or_create (md5 : Str → Str) (disk : Disk) (filename : Str)
    (session : Session) : Except SqlErr ResourceRow :=
  match get_digest md5 disk filename with
  | .error e => .error e
  | .ok md5sum =>
    match session.resources.find?
        (fun r => decide (r.filename = filename ∧ r.md5sum = md5sum)) with
    | some r => .ok r
    | none =>
      match disk filename with
      | none => .error (.fileNotFound filename)
      | some content => .ok ⟨filename, md5sum, content⟩

/-- Inserts a resource row unless one with the same `(filename, md5sum)`
identity is already present; models the cascading `session.add` through which
rows returned by `get_or_create` become persistent. -/
def addRow (r : ResourceRow) (s : Session) : Session :=
  if s.resources.any (fun x => decide (x.filename = r.filename ∧ x.md5sum = r.md5sum)) then s
  else { s with resources := s.resources ++ [r] }

/-- `get_or_create` followed by the caller's `session.add`. Modelled from the
spec: the caller (`SqlObserver.resource_event`, not under src/) attaches the
returned row to the current run, making it persistent in the shared
session. -/
def get_or_create_add (md5 : Str → Str) (disk : Disk) (filename : Str)
    (session : Session) : Except SqlErr (ResourceRow × Session) :=
  (get_or_create md5 disk filename session).map fun r => (r, addRow r session)

end Resource

namespace Repository

/-- `sql_bases.Repository.get_or_create`: exact-match lookup on the full
`(url, commit, dirty)` identity; a fresh row on a miss. -/
def get_or_create (url commit : Str) (dirty : Bool) (session : Session) : RepoRow :=
  match session.repositories.find?
      (fun r => decide (r.url = url ∧ r.commit = commit ∧ r.dirty = dirty)) with
  | some r => r
  | none => ⟨url, commit, dirty⟩

/-- The explicit `session.add(repository)` from `Experiment.get_or_create`:
inserts the row unless one with the same identity is already present. -/
def addRow (r : RepoRow) (s : Session) : Session :=
  if s.repositories.any (fun x => decide (x.url = r.url ∧ x.commit = r.commit ∧ x.dirty = r.dirty)) then s
  else { s with repositories := s.repositories ++ [r] }

end Repository

/-- JSON-like values modelling the Python payloads handled here (`ex_info`,
`config`, the `to_json` projections). Objects keep their key order, as Python
dicts do. -/
inductive JVal where
  | null : JVal
  | s : Str → JVal
  | num : Int → JVal
  | b : Bool → JVal
  | arr : List JVal → JVal
  | obj : List (Str × JVal) → JVal

/-- Decimal rendering of an integer, as `json.dumps` emits it. -/
def intDumps (i : Int) : Str :=
  match i with
  | .ofNat n => Nat.toDigits 10 n
  | .negSucc n => '-' :: Nat.toDigits 10 (n + 1)

/-- Interleaves `", "`, the default `json.dumps` item separator. -/
def joinComma : List Str → Str
  | [] => []
  | [x] => x
  | x :: y :: xs => x ++ ',' :: ' ' :: joinComma (y :: xs)

mutual

/-- Model of `json.dumps`: object keys are emitted in insertion order
(`sort_keys` is not set at the call site in `Experiment.get_or_create`),
strings are quoted, items separated by `", "` and keys by `": "`. Escaping of
special characters inside strings is elided; the payloads modelled here
contain none. -/
def jsonDumps : JVal → Str
  | .null => str "null"
  | .s v => '"' :: v ++ ['"']
  | .num i => intDumps i
  | .b true => str "true"
  | .b false => str "false"
  | .arr xs => '[' :: joinComma (jsonDumpsList xs) ++ [']']
  | .obj kvs => '\x7b' :: joinComma (jsonDumpsObj kvs) ++ ['\x7d']

/-- The serializations of the items of a JSON array, in order. -/
def jsonDumpsList : List JVal → List Str
  | [] => []
  | x :: xs => jsonDumps x :: jsonDumpsList xs

/-- The `"key": value` serializations of the entries of a JSON object, in
insertion order. -/
def jsonDumpsObj : List (Str × JVal) → List Str
  | [] => []
  | (k, v) :: kvs => ('"' :: k ++ '"' :: ':' :: ' ' :: jsonDumps v) :: jsonDumpsObj kvs

end

/-- Python `d[key]` on an insertion-ordered dict with unique keys: the value
at the first matching key. -/
def jlookup (kvs : List (Str × JVal)) (k : Str) : Option JVal :=
  (kvs.find? (fun kv => decide (kv.1 = k))).map (·.2)

/-- Coerces a dict access that must yield a string; a missing key or wrong
shape is a payload error (Python raises). -/
def expectStr : Option JVal → Except SqlErr Str
  | some (.s v) => .ok v
  | _ => .error .badPayload

/-- Coerces a dict access that must yield a list. -/
def expectArr : Option JVal → Except SqlErr (List JVal)
  | some (.arr xs) => .ok xs
  | _ => .error .badPayload

/-- Coerces a dict access that must yield a boolean. -/
def expectBool : Option JVal → Except SqlErr Bool
  | some (.b v) => .ok v
  | _ => .error .badPayload

namespace Experiment

/-- The identity digest `Experiment.get_or_create` computes over the payload:
`hashlib.md5` of the `json.dumps` serialization of the full `ex_info` dict. -/
def payloadDigest (md5 : Str → Str) (ex_info : List (Str × JVal)) : Str :=
  md5 (jsonDumps (.obj ex_info))

/-- One dependency entry of `ex_info["dependencies"]` resolved through
`Dependency.get_or_create` against the session. -/
def resolveDep (j : JVal) (s : Session) : Except SqlErr DepRow :=
  match j with
  | .s d => .ok (Dependency.get_or_create d s)
  | _ => .error .badPayload

/-- One `(filename, md5sum)` pair of `ex_info["sources"]` resolved through
`Source.get_or_create` against the session. -/
def resolveSource (md5 : Str → Str) (disk : Disk) (basedir : Str) (j : JVal)
    (s : Session) : Except SqlErr SourceRow :=
  match j with
  | .arr [.s f, .s m] => Source.get_or_create md5 disk f m s basedir
  | _ => .error .badPayload

/-- One iteration of the repository loop of `Experiment.get_or_create`:
resolve the descriptor through `Repository.get_or_create`, then the explicit
`session.add(repository)`. -/
def resolveRepo (j : JVal) (s : Session) : Except SqlErr (RepoRow × Session) :=
  match j with
  | .obj kv =>
    match expectStr (jlookup kv (str "url")), expectStr (jlookup kv (str "commit")),
        expectBool (jlookup kv (str "dirty")) with
    | .ok url, .ok commit, .ok dirty =>
      let r := Repository.get_or_create url commit dirty s
      .ok (r, Repository.addRow r s)
    | _, _, _ => .error .badPayload
  | _ => .error .badPayload

/-- The repository loop, threading the session through the adds. -/
def resolveRepos : List JVal → Session → Except SqlErr (List RepoRow × Session)
  | [], s => .ok ([], s)
  | j :: js, s =>
    match resolveRepo j s with
    | .error e => .error e
    | .ok (r, s') =>
      match resolveRepos js s' with
      | .error e => .error e
      | .ok (rs, s'') => .ok (r :: rs, s'')

/-- `sql_bases.Experiment.get_or_create`, with the caller's cascading
`session.add` of the returned aggregate (`SqlObserver.started_event` is not
under src/; the spec scopes the registry to the shared session). On a hit on
`(name, md5 (json.dumps ex_info))` the cached row is returned and the session
is untouched. On a miss, dependencies and sources are resolved against the
incoming session, repositories through the explicit adds of the loop, the
collected repository instances are deduplicated (the source collects them in
a set), and the new row with its source and dependency collections is made
persistent. -/
def get_or_create (md5 : Str → Str) (disk : Disk) (ex_info : List (Str × JVal))
    (session : Session) : Except SqlErr (ExpRow × Session) :=
  match expectStr (jlookup ex_info (str "name")) with
  | .error e => .error e
  | .ok name =>
    let digest := payloadDigest md5 ex_info
    match session.experiments.find? (fun e => decide (e.name = name ∧ e.md5sum = digest)) with
    | some e => .ok (e, session)
    | none =>
      match expectArr (jlookup ex_info (str "dependencies")) with
      | .error e => .error e
      | .ok depsJ =>
        match depsJ.mapM (fun j => resolveDep j session) with
        | .error e => .error e
        | .ok deps =>
          match expectArr (jlookup ex_info (str "sources")),
              expectStr (jlookup ex_info (str "base_dir")) with
          | .ok srcsJ, .ok base_dir =>
            (match srcsJ.mapM (fun j => resolveSource md5 disk base_dir j session) with
            | .error e => .error e
            | .ok srcs =>
              match expectArr (jlookup ex_info (str "repositories")) with
              | .error e => .error e
              | .ok reposJ =>
                match resolveRepos reposJ session with
                | .error e => .error e
                | .ok (repos, s1) =>
                  let row : ExpRow := ⟨name, digest, base_dir, srcs, repos.dedup, deps⟩
                  let s2 := deps.foldl (fun s d => Dependency.addRow d s) s1
                  let s3 := srcs.foldl (fun s r => Source.addRow r s) s2
                  .ok (row, { s3 with experiments := s3.experiments ++ [row] }))
          | _, _ => .error .badPayload

end Experiment

/-- The per-metric batch handed to `log_metrics` after `linearize_metrics`:
the three parallel series plus the latest `units` and `depends_on`. Step and
measurement values are integers, timestamps epoch naturals, as in
`MetricRow`. -/
structure MetricInfo where
  depends_on : List Str
  units : Str
  steps : List Int
  values : List Int
  timestamps : List Nat
  deriving Repr, DecidableEq

namespace Metric

/-- The dependency resolution of the metric store: the ids of the metrics
already persisted for the same run whose names appear in `names` (the
`session.execute(sa.select(Metric).where(...))` of `Metric.create`;
unmatched names are silently dropped). -/
def resolveDepIds (run_id : Str) (names : List Str) (s : Session) : List Nat :=
  (s.metrics.filter (fun mr => decide (mr.run_id = run_id) && names.contains mr.name)).map
    (·.metric_id)

/-- `sql_bases.Metric.create`: resolve `metric_info["depends_on"]` against the
metrics already persisted for the same run, then build the row with the three
parallel series; `metric_id` models the autoincrement key. -/
def create (run_id metric_name : Str) (metric_info : MetricInfo) (session : Session) :
    MetricRow :=
  { metric_id := session.nextMetricId
    run_id := run_id
    name := metric_name
    units := metric_info.units
    steps := metric_info.steps
    values := metric_info.values
    timestamps := metric_info.timestamps
    depends_on := resolveDepIds run_id metric_info.depends_on session }

/-- The append step of the Metric Series Store on one row: a row of the given
`(run, name)` identity gets the new steps, values and timestamps appended to
its sequences and its units and dependency set overwritten; every other row
is untouched. -/
def appendTo (run_id metric_name : Str) (info : MetricInfo) (depIds : List Nat)
    (mr : MetricRow) : MetricRow :=
  if mr.run_id = run_id ∧ mr.name = metric_name then
    { mr with
        steps := mr.steps ++ info.steps
        values := mr.values ++ info.values
        timestamps := mr.timestamps ++ info.timestamps
        units := info.units
        depends_on := depIds }
  else mr

/-- Modelled from the spec: `SqlObserver.log_metrics` (not under src/) drives
the Metric Series Store. A missing `(run, name)` row is created through
`Metric.create`; an existing row is appended to — steps, values and
timestamps extended, units and the dependency set overwritten with the
latest observation (`appendTo`). -/
def log (run_id metric_name : Str) (info : MetricInfo) (s : Session) : Session :=
  match s.metrics.find? (fun mr => decide (mr.run_id = run_id ∧ mr.name = metric_name)) with
  | some _ =>
    { s with
        metrics := s.metrics.map
          (appendTo run_id metric_name info (resolveDepIds run_id info.depends_on s)) }
  | none =>
    { s with
        metrics := s.metrics ++ [create run_id metric_name info s]
        nextMetricId := s.nextMetricId + 1 }

/-- One `log_metrics` event: one append per metric name in the batch, in
batch order. -/
def logBatch (run_id : Str) (batch : List (Str × MetricInfo)) (s : Session) : Session :=
  batch.foldl (fun s p => log run_id p.1 p.2 s) s

end Metric

/-- A heartbeat payload: the info mapping, the newly captured output chunk,
the beat time and the intermediate result. -/
structure HBPayload where
  info : JVal
  chunk : Str
  beat_time : Nat
  result : Int

/-- A row of the `run` table (`sql_bases.Run`) with its relationship
collections resolved. Times are epoch naturals, the result and priority
floats are integers, `config` and `info` hold serialized text, `status` one
of the enum labels. -/
structure RunRow where
  run_id : Str
  command : Str
  start_time : Option Nat
  heartbeat : Option Nat
  stop_time : Option Nat
  queue_time : Option Nat
  priority : Option Int
  comment : Option Str
  fail_trace : Option Str
  captured_out : Option Str
  config : Str
  info : Option Str
  status : Str
  result : Option Int
  host : HostRow
  experiment : ExpRow
  artifacts : List ArtifactRow
  resources : List ResourceRow
  metrics : List MetricRow

/-- Modelled from the spec: `SqlObserver.heartbeat_event` (not under src/)
"updates heartbeat timestamp, serialized info blob, appends captured-output
(append semantics — new output is concatenated to previously stored output,
never replacing it), and current result value, on the existing Run row". The
serializer is modelled by `jsonDumps`. -/
def heartbeat_event (p : HBPayload) (r : RunRow) : RunRow :=
  { r with
      heartbeat := some p.beat_time
      info := some (jsonDumps p.info)
      captured_out := some (r.captured_out.getD [] ++ p.chunk)
      result := some p.result }

/-- The capture state of `TestRailApiObserver`: the cumulative captured
output `cout`, the write cursor, and the accumulated `cout.txt` raw
attachment. -/
structure CoutState where
  cout : Str
  cout_write_cursor : Nat
  attachment : Str
  deriving Repr, DecidableEq

/-- `testrail.TestRailApiObserver.save_cout`: appends `cout[cout_write_cursor:]`
to the `cout.txt` raw attachment and advances the cursor to the end. -/
def save_cout (st : CoutState) : CoutState :=
  { st with
      attachment := st.attachment ++ st.cout.drop st.cout_write_cursor
      cout_write_cursor := st.cout.length }

/-- One heartbeat as the file-storage observer sees it: the framework extends
`cout` with the newly captured chunk, then `save_cout` runs. -/
def heartbeat_cout (st : CoutState) (chunk : Str) : CoutState :=
  save_cout { st with cout := st.cout ++ chunk }

/-- Model of `datetime.isoformat` on the epoch naturals standing for
datetimes: a decimal rendering (injective and order-preserving, which is all
the projections rely on). -/
def isoformat (t : Nat) : Str := Nat.toDigits 10 t

/-- A `None`-or-string field as `to_json` emits it. -/
def optStr : Option Str → JVal
  | none => .null
  | some v => .s v

/-- A `None`-or-number field as `to_json` emits it. -/
def optNum : Option Int → JVal
  | none => .null
  | some i => .num i

/-- A `None`-or-datetime field as `to_json` emits it. -/
def optTime : Option Nat → JVal
  | none => .null
  | some t => .num (Int.ofNat t)

/-- Modelled from the spec: `sacred.serializer.restore` composed with
`json.loads` (neither under src/) converts the text stored in `Run.config`
back to the nested payload; modelled as an uninterpreted embedding of the
stored text. -/
def restoreLoads (s : Str) : JVal := .s s

/-- `sql_bases.Source.to_json`. -/
def Source.to_json (r : SourceRow) : JVal :=
  .obj [(str "filename", .s r.filename), (str "md5sum", .s r.md5sum)]

/-- `sql_bases.Resource.to_json`. -/
def Resource.to_json (r : ResourceRow) : JVal :=
  .obj [(str "filename", .s r.filename), (str "md5sum", .s r.md5sum)]

/-- `sql_bases.Repository.to_json`. -/
def Repository.to_json (r : RepoRow) : JVal :=
  .obj [(str "url", .s r.url), (str "commit", .s r.commit), (str "dirty", .b r.dirty)]

/-- `sql_bases.Artifact.to_json`. -/
def Artifact.to_json (a : ArtifactRow) : JVal :=
  .obj [(str "_id", .num (Int.ofNat a.artifact_id)), (str "filename", .s a.filename)]

/-- `sql_bases.Host.to_json`. -/
def Host.to_json (h : HostRow) : JVal :=
  .obj [(str "cpu", .s h.cpu), (str "hostname", .s h.hostname),
    (str "os", .arr [.s h.os, .s h.os_info]), (str "python_version", .s h.python_version)]

/-- `sql_bases.Experiment.to_json`. -/
def Experiment.to_json (e : ExpRow) : JVal :=
  .obj [(str "name", .s e.name), (str "base_dir", .s e.base_dir),
    (str "sources", .arr (e.sources.map Source.to_json)),
    (str "repositories", .arr (e.repositories.map Repository.to_json)),
    (str "dependencies", .arr (e.dependencies.map (fun d => .s (Dependency.to_json d))))]

/-- `sql_bases.Metric.to_json`. -/
def Metric.to_json (m : MetricRow) : JVal :=
  .obj [(str "name", .s m.name),
    (str "values", .arr (m.values.map JVal.num)),
    (str "steps", .arr (m.steps.map JVal.num)),
    (str "timestamps", .arr (m.timestamps.map (fun t => .s (isoformat t)))),
    (str "units", .s m.units)]

/-- `sql_bases.Run.to_json`: the read-side projection of the full aggregate. -/
def Run.to_json (r : RunRow) : JVal :=
  .obj [
    (str "_id", .s r.run_id),
    (str "command", .s r.command),
    (str "start_time", optTime r.start_time),
    (str "heartbeat", optTime r.heartbeat),
    (str "stop_time", optTime r.stop_time),
    (str "queue_time", optTime r.queue_time),
    (str "status", .s r.status),
    (str "result", optNum r.result),
    (str "meta", .obj [(str "comment", optStr r.comment), (str "priority", optNum r.priority)]),
    (str "resources", .arr (r.resources.map Resource.to_json)),
    (str "artifacts", .arr (r.artifacts.map Artifact.to_json)),
    (str "metrics", .arr (r.metrics.map Metric.to_json)),
    (str "host", Host.to_json r.host),
    (str "experiment", Experiment.to_json r.experiment),
    (str "config", restoreLoads r.config),
    (str "captured_out", optStr r.captured_out),
    (str "fail_trace", optStr r.fail_trace)]

/-- The key list of a JSON object (empty for non-objects). -/
def objKeys : JVal → List Str
  | .obj kvs => kvs.map (·.1)
  | _ => []

/-- The value at a key of a JSON object. -/
def objGet (v : JVal) (k : Str) : Option JVal :=
  match v with
  | .obj kvs => jlookup kvs k
  | _ => none

/-- The collision-free digest instantiation used for concrete runs: content
stands for its own fingerprint (mirrors `tmpfile.md5sum` fixtures only up to
renaming of digests). -/
def md5Id : Str → Str := fun s => s

/-- A concrete two-file filesystem used for concrete runs, mirroring the
`tmpfile` fixture of the tests. -/
def diskW : Disk := fun p =>
  if p = str "/tmp/a.py" then some (str "body")
  else if p = str "r.txt" then some (str "data") else none

/-- A concrete experiment payload, mirroring the `sample_run` fixture of the
tests. -/
def exInfoW : List (Str × JVal) :=
  [(str "name", .s (str "exp")), (str "sources", .arr []), (str "repositories", .arr []),
    (str "dependencies", .arr []), (str "base_dir", .s (str "/tmp"))]

/-- The source row created for `/tmp/a.py` under `md5Id`/`diskW`. -/
def srcRowW : SourceRow := ⟨str "a.py", str "body", str "body"⟩

/-- The resource row created for `r.txt` under `md5Id`/`diskW`. -/
def resRowW : ResourceRow := ⟨str "r.txt", str "data", str "data"⟩

/-- The experiment row created for `exInfoW` under `md5Id`. -/
def expRowW : ExpRow := ⟨str "exp", Experiment.payloadDigest md5Id exInfoW, str "/tmp", [], [], []⟩

/-- The session after registering `srcRowW`. -/
def s1W : Session := { Session.empty with sources := [srcRowW] }

/-- The session after registering `resRowW`. -/
def t1W : Session := { Session.empty with resources := [resRowW] }

/-- The session after registering `expRowW`. -/
def u1W : Session := { Session.empty with experiments := [expRowW] }

/-- `exInfoW` with its first two keys swapped: the same mapping in a
different insertion order. -/
def exInfoW2 : List (Str × JVal) :=
  [(str "sources", .arr []), (str "name", .s (str "exp")), (str "repositories", .arr []),
    (str "dependencies", .arr []), (str "base_dir", .s (str "/tmp"))]

/-- Whether a list of timestamps is monotonically non-decreasing. -/
def nondecreasing : List Nat → Bool
  | [] => true
  | [_] => true
  | a :: b :: l => decide (a ≤ b) && nondecreasing (b :: l)

/-- A concrete metric batch: two samples. -/
def infoW : MetricInfo := ⟨[], str "", [10, 20], [1, 2], [0, 1]⟩

/-- A concrete host, mirroring the `sample_run` fixture of the tests. -/
def hostW : HostRow := ⟨str "Intel", str "test_host", str "Linux", str "Ubuntu", str "3.4"⟩

/-- A concrete freshly started run, mirroring the `sample_run` fixture. -/
def runW : RunRow :=
  ⟨str "FEDCBA9876543210", str "run", some 1, none, none, none, some 0,
    some (str "test run"), none, none, str "\x7b\x7d", none, str "RUNNING", none,
    hostW, expRowW, [], [], []⟩

/-- A concrete first heartbeat payload. -/
def p1W : HBPayload := ⟨.s (str "i1"), str "out1", 5, 1⟩

/-- A concrete second heartbeat payload. -/
def p2W : HBPayload := ⟨.s (str "i2"), str "out2", 6, 2⟩

/-- The capture state of a freshly constructed observer. -/
def st0W : CoutState := ⟨[], 0, []⟩

end Sacred

namespace Sacred

namespace Dependency

theorem partitionEq_eq_append : ∀ {s : Str} {p : Str × Str},
    partitionEq s = some p → s = p.1 ++ '=' :: '=' :: p.2
  | [], _, h => by simp [partitionEq] at h
  | [_], _, h => by simp [partitionEq] at h
  | c1 :: c2 :: rest, p, h => by
    by_cases hc : c1 = '=' ∧ c2 = '='
    · rw [partitionEq, if_pos hc] at h
      obtain ⟨rfl, rfl⟩ := hc
      cases h
      rfl
    · rw [partitionEq, if_neg hc] at h
      cases hrec : partitionEq (c2 :: rest) with
      | none => rw [hrec] at h; cases h
      | some q =>
        rw [hrec] at h
        cases h
        have := partitionEq_eq_append hrec
        simpa using congrArg (c1 :: ·) this

theorem partitionEq_isSome : ∀ (n v : Str), (partitionEq (n ++ '=' :: '=' :: v)).isSome
  | [], v => by simp [partitionEq]
  | [c], v => by
    by_cases hc : c = '=' <;> simp [partitionEq, hc, partitionEq_isSome [] v]
  | c1 :: c2 :: n, v => by
    by_cases hc : c1 = '=' ∧ c2 = '='
    · simp [partitionEq, hc]
    · have ih := partitionEq_isSome (c2 :: n) v
      rw [show (c1 :: c2 :: n) ++ '=' :: '=' :: v = c1 :: ((c2 :: n) ++ '=' :: '=' :: v) from rfl]
      rw [show (c2 :: n) ++ '=' :: '=' :: v = c2 :: (n ++ '=' :: '=' :: v) from rfl] at ih ⊢
      rw [partitionEq, if_neg hc]
      cases hrec : partitionEq (c2 :: (n ++ '=' :: '=' :: v)) with
      | none => rw [hrec] at ih; simp at ih
      | some q => simp

end Dependency

/-- C10: for every dependency string of the form `name==version`,
`Dependency.get_or_create` yields a row whose `name` and `version` are the two
parts obtained by splitting at the first `"=="`, and `to_json` of that row is
exactly the original string, so `to_json` after `get_or_create` is the
identity on such strings. -/
theorem C10_dependency_round_trip (dep : Str) (session : Session)
    (h : ∃ n v, dep = n ++ '=' :: '=' :: v) :
    ∃ p, Dependency.partitionEq dep = some p ∧
      (Dependency.get_or_create dep session).name = p.1 ∧
      (Dependency.get_or_create dep session).version = p.2 ∧
      Dependency.to_json (Dependency.get_or_create dep session) = dep := by
  obtain ⟨n, v, rfl⟩ := h
  obtain ⟨p, hp⟩ := Option.isSome_iff_exists.mp (Dependency.partitionEq_isSome n v)
  refine ⟨p, hp, ?_⟩
  have happ := Dependency.partitionEq_eq_append hp
  simp only [Dependency.get_or_create, hp]
  cases hfind : (session.dependencies.find?
      (fun r => decide (r.name = p.1 ∧ r.version = p.2))) with
  | some r =>
    have hpred := List.find?_some hfind
    obtain ⟨h1, h2⟩ := of_decide_eq_true hpred
    refine ⟨h1, h2, ?_⟩
    simp [Dependency.to_json, h1, h2, ← happ]
  | none =>
    refine ⟨rfl, rfl, ?_⟩
    simp [Dependency.to_json, ← happ]

theorem sourceAddRow_experiments (r : SourceRow) (s : Session) :
    (Source.addRow r s).experiments = s.experiments := by
  unfold Source.addRow; split <;> rfl

theorem depAddRow_experiments (d : DepRow) (s : Session) :
    (Dependency.addRow d s).experiments = s.experiments := by
  unfold Dependency.addRow; split <;> rfl

theorem repoAddRow_experiments (r : RepoRow) (s : Session) :
    (Repository.addRow r s).experiments = s.experiments := by
  unfold Repository.addRow; split <;> rfl

theorem foldl_depAddRow_experiments (ds : List DepRow) (s : Session) :
    (ds.foldl (fun s d => Dependency.addRow d s) s).experiments = s.experiments := by
  induction ds generalizing s with
  | nil => rfl
  | cons d ds ih => rw [List.foldl_cons, ih, depAddRow_experiments]

theorem foldl_sourceAddRow_experiments (rs : List SourceRow) (s : Session) :
    (rs.foldl (fun s r => Source.addRow r s) s).experiments = s.experiments := by
  induction rs generalizing s with
  | nil => rfl
  | cons r rs ih => rw [List.foldl_cons, ih, sourceAddRow_experiments]

theorem Experiment.resolveRepo_experiments {j : JVal} {s : Session} {p : RepoRow × Session}
    (h : Experiment.resolveRepo j s = .ok p) : p.2.experiments = s.experiments := by
  unfold Experiment.resolveRepo at h
  split at h
  · split at h
    · injection h with h1
      rw [← h1]
      exact repoAddRow_experiments _ _
    · cases h
  · cases h

theorem Experiment.resolveRepos_experiments : ∀ {js : List JVal} {s : Session}
    {q : List RepoRow × Session}, Experiment.resolveRepos js s = .ok q →
    q.2.experiments = s.experiments
  | [], s, q, h => by
    unfold Experiment.resolveRepos at h
    injection h with h1
    rw [← h1]
  | j :: js, s, q, h => by
    unfold Experiment.resolveRepos at h
    split at h
    · cases h
    · rename_i r s1 h1
      split at h
      · cases h
      · rename_i rs s2 h2
        injection h with h3
        rw [← h3]
        have e2 := Experiment.resolveRepos_experiments h2
        have e1 := Experiment.resolveRepo_experiments h1
        simp only at e1 e2 ⊢
        rw [e2, e1]

theorem sourceGetOrCreate_ok_fields {md5 : Str → Str} {disk : Disk} {f m : Str}
    {s : Session} {b : Str} {r : SourceRow}
    (h : Source.get_or_create md5 disk f m s b = .ok r) :
    r.filename = f ∧ r.md5sum = m := by
  unfold Source.get_or_create get_digest at h
  split at h
  · rename_i r' heq
    injection h with h1
    have hp := List.find?_some heq
    simp only [decide_eq_true_eq] at hp
    rw [← h1]
    exact hp
  · split at h
    · cases h
    · split at h
      · split at h
        · cases h
        · injection h with h1
          rw [← h1]
          exact ⟨rfl, rfl⟩
      · cases h

theorem resourceGetOrCreate_ok_fields {md5 : Str → Str} {disk : Disk} {g : Str}
    {s : Session} {r : ResourceRow} {c : Str} (hd : disk g = some c)
    (h : Resource.get_or_create md5 disk g s = .ok r) :
    r.filename = g ∧ r.md5sum = md5 c := by
  unfold Resource.get_or_create get_digest at h
  split at h
  · cases h
  · rename_i md5sum' heq
    rw [hd] at heq
    injection heq with heq2
    subst heq2
    split at h
    · rename_i r' hfind
      injection h with h1
      have hp := List.find?_some hfind
      simp only [decide_eq_true_eq] at hp
      rw [← h1]
      exact hp
    · split at h
      · cases h
      · rename_i c2 hc2
        rw [hd] at hc2
        injection hc2 with hc2
        subst hc2
        injection h with h1
        rw [← h1]
        exact ⟨rfl, rfl⟩

theorem Experiment.get_or_create_ok_inv {md5 : Str → Str} {disk : Disk}
    {ex_info : List (Str × JVal)} {s0 : Session} {r : ExpRow} {s' : Session} {name : Str}
    (hname : expectStr (jlookup ex_info (str "name")) = .ok name)
    (h : Experiment.get_or_create md5 disk ex_info s0 = .ok (r, s')) :
    (s0.experiments.find?
        (fun e => decide (e.name = name ∧ e.md5sum = Experiment.payloadDigest md5 ex_info)) =
          some r ∧ s' = s0) ∨
    (s0.experiments.find?
        (fun e => decide (e.name = name ∧ e.md5sum = Experiment.payloadDigest md5 ex_info)) =
          none ∧
      r.name = name ∧ r.md5sum = Experiment.payloadDigest md5 ex_info ∧
      s'.experiments = s0.experiments ++ [r]) := by
  unfold Experiment.get_or_create at h
  split at h
  · cases h
  · rename_i name' heq
    rw [hname] at heq
    injection heq with heq2
    subst heq2
    simp only [] at h
    split at h
    · rename_i e' hf
      injection h with h1
      injection h1 with ha hb
      exact Or.inl ⟨by rw [hf, ha], hb.symm⟩
    · rename_i hf
      split at h
      · cases h
      · rename_i depsJ hd1
        split at h
        · cases h
        · rename_i deps hd2
          split at h
          · rename_i srcsJ base_dir hd3 hd4
            split at h
            · cases h
            · rename_i srcs hd5
              split at h
              · cases h
              · rename_i reposJ hd6
                split at h
                · cases h
                · rename_i repos s1 hd7
                  injection h with h1
                  injection h1 with ha hb
                  refine Or.inr ⟨hf, ?_, ?_, ?_⟩
                  · rw [← ha]
                  · rw [← ha]
                  · rw [← hb, ← ha]
                    simp only
                    rw [foldl_sourceAddRow_experiments, foldl_depAddRow_experiments]
                    have hrr := Experiment.resolveRepos_experiments hd7
                    simp only at hrr
                    rw [hrr]
          · cases h

theorem find?_eq_none_of_countP_zero {α : Type} (p : α → Bool) {l : List α}
    (h : l.countP p = 0) : l.find? p = none :=
  List.find?_eq_none.mpr fun x hx => List.countP_eq_zero.mp h x hx

theorem any_eq_false_of_countP_zero {α : Type} (p : α → Bool) {l : List α}
    (h : l.countP p = 0) : l.any p = false := by
  rw [List.any_eq_false]
  exact fun x hx => List.countP_eq_zero.mp h x hx

theorem sourceGetOrCreateAdd_idem {md5 : Str → Str} {disk : Disk} {f m basedir : Str}
    {s0 s1 : Session} {r1 : SourceRow}
    (hc : s0.sources.countP (fun x => decide (x.filename = f ∧ x.md5sum = m)) = 0)
    (h1 : Source.get_or_create_add md5 disk f m s0 basedir = .ok (r1, s1)) :
    Source.get_or_create_add md5 disk f m s1 basedir = .ok (r1, s1) ∧
    s1.sources.countP (fun x => decide (x.filename = f ∧ x.md5sum = m)) = 1 := by
  unfold Source.get_or_create_add at h1
  cases hg : Source.get_or_create md5 disk f m s0 basedir with
  | error e => rw [hg] at h1; simp [Except.map] at h1
  | ok r =>
    rw [hg] at h1
    simp only [Except.map] at h1
    injection h1 with h2
    injection h2 with ha hb
    subst ha
    have hfields := sourceGetOrCreate_ok_fields hg
    have hnone : s0.sources.find? (fun x => decide (x.filename = f ∧ x.md5sum = m)) = none :=
      find?_eq_none_of_countP_zero _ hc
    have hanyf : (s0.sources.any fun x =>
        decide (x.filename = r.filename ∧ x.md5sum = r.md5sum)) = false := by
      rw [hfields.1, hfields.2]
      exact any_eq_false_of_countP_zero _ hc
    have hadd : Source.addRow r s0 = { s0 with sources := s0.sources ++ [r] } := by
      unfold Source.addRow
      rw [hanyf]
      simp
    have hpr : (fun x => decide (x.filename = f ∧ x.md5sum = m)) r = true := by
      simp [hfields.1, hfields.2]
    have hfind2 : ({ s0 with sources := s0.sources ++ [r] } : Session).sources.find?
        (fun x => decide (x.filename = f ∧ x.md5sum = m)) = some r := by
      show (s0.sources ++ [r]).find? _ = some r
      rw [List.find?_append, hnone]
      simp only [Option.none_or]
      simp [List.find?_cons, hfields.1, hfields.2]
    have hany2 : (({ s0 with sources := s0.sources ++ [r] } : Session).sources.any fun x =>
        decide (x.filename = r.filename ∧ x.md5sum = r.md5sum)) = true := by
      show (s0.sources ++ [r]).any _ = true
      rw [List.any_append]
      simp [hfields.1, hfields.2]
    rw [← hb, hadd]
    constructor
    · simp only [Source.get_or_create_add, Source.get_or_create, hfind2, Except.map,
        Source.addRow, hany2, if_true]
    · show (s0.sources ++ [r]).countP _ = 1
      rw [List.countP_append, hc]
      simp [List.countP_cons, hfields.1, hfields.2]

theorem resourceGetOrCreateAdd_idem {md5 : Str → Str} {disk : Disk} {g c : Str}
    {t0 t1 : Session} {q1 : ResourceRow}
    (hdisk : disk g = some c)
    (hc : t0.resources.countP (fun x => decide (x.filename = g ∧ x.md5sum = md5 c)) = 0)
    (h1 : Resource.get_or_create_add md5 disk g t0 = .ok (q1, t1)) :
    Resource.get_or_create_add md5 disk g t1 = .ok (q1, t1) ∧
    t1.resources.countP (fun x => decide (x.filename = g ∧ x.md5sum = md5 c)) = 1 := by
  unfold Resource.get_or_create_add at h1
  cases hg : Resource.get_or_create md5 disk g t0 with
  | error e => rw [hg] at h1; simp [Except.map] at h1
  | ok r =>
    rw [hg] at h1
    simp only [Except.map] at h1
    injection h1 with h2
    injection h2 with ha hb
    subst ha
    have hfields := resourceGetOrCreate_ok_fields hdisk hg
    have hnone : t0.resources.find? (fun x => decide (x.filename = g ∧ x.md5sum = md5 c)) = none :=
      find?_eq_none_of_countP_zero _ hc
    have hanyf : (t0.resources.any fun x =>
        decide (x.filename = r.filename ∧ x.md5sum = r.md5sum)) = false := by
      rw [hfields.1, hfields.2]
      exact any_eq_false_of_countP_zero _ hc
    have hadd : Resource.addRow r t0 = { t0 with resources := t0.resources ++ [r] } := by
      unfold Resource.addRow
      rw [hanyf]
      simp
    have hpr : (fun x => decide (x.filename = g ∧ x.md5sum = md5 c)) r = true := by
      simp [hfields.1, hfields.2]
    have hfind2 : ({ t0 with resources := t0.resources ++ [r] } : Session).resources.find?
        (fun x => decide (x.filename = g ∧ x.md5sum = md5 c)) = some r := by
      show (t0.resources ++ [r]).find? _ = some r
      rw [List.find?_append, hnone]
      simp only [Option.none_or]
      simp [List.find?_cons, hfields.1, hfields.2]
    have hany2 : (({ t0 with resources := t0.resources ++ [r] } : Session).resources.any fun x =>
        decide (x.filename = r.filename ∧ x.md5sum = r.md5sum)) = true := by
      show (t0.resources ++ [r]).any _ = true
      rw [List.any_append]
      simp [hfields.1, hfields.2]
    rw [← hb, hadd]
    constructor
    · simp only [Resource.get_or_create_add, Resource.get_or_create, get_digest, hdisk,
        hfind2, Except.map, Resource.addRow, hany2, if_true]
    · show (t0.resources ++ [r]).countP _ = 1
      rw [List.countP_append, hc]
      simp [List.countP_cons, hfields.1, hfields.2]

theorem Experiment.get_or_create_idem {md5 : Str → Str} {disk : Disk}
    {ex_info : List (Str × JVal)} {u0 u1 : Session} {e1 : ExpRow} {name : Str}
    (hname : expectStr (jlookup ex_info (str "name")) = .ok name)
    (hc : u0.experiments.countP
      (fun e => decide (e.name = name ∧ e.md5sum = Experiment.payloadDigest md5 ex_info)) = 0)
    (h : Experiment.get_or_create md5 disk ex_info u0 = .ok (e1, u1)) :
    Experiment.get_or_create md5 disk ex_info u1 = .ok (e1, u1) ∧
    u1.experiments.countP
      (fun e => decide (e.name = name ∧ e.md5sum = Experiment.payloadDigest md5 ex_info)) = 1 := by
  cases Experiment.get_or_create_ok_inv hname h with
  | inl hl =>
    exfalso
    have hm := List.mem_of_find?_eq_some hl.1
    have hp := List.find?_some hl.1
    exact List.countP_eq_zero.mp hc _ hm hp
  | inr hr =>
    obtain ⟨hnone, hn, hm, happ⟩ := hr
    have hpr : (fun e => decide (e.name = name ∧
        e.md5sum = Experiment.payloadDigest md5 ex_info)) e1 = true := by
      simp [hn, hm]
    have hfind : u1.experiments.find?
        (fun e => decide (e.name = name ∧ e.md5sum = Experiment.payloadDigest md5 ex_info)) =
          some e1 := by
      rw [happ, List.find?_append, hnone]
      simp only [Option.none_or]
      simp [List.find?_cons, hn, hm]
    constructor
    · simp only [Experiment.get_or_create, hname, hfind]
    · rw [happ, List.countP_append, hc]
      simp [List.countP_cons, hn, hm]

/-- C1: get-or-create is idempotent per session and identity. A second
`Source.get_or_create` with the same `(filename, md5sum)`, a second
`Resource.get_or_create` with the same filename over the same disk, and a
second `Experiment.get_or_create` with the same payload, each run against the
session produced by the first call, return the very row the first call
produced, leave the session unchanged, and the store holds exactly one row of
that identity. -/
theorem C1_get_or_create_idempotent (md5 : Str → Str) (disk : Disk)
    (f m basedir g c : Str) (ex_info : List (Str × JVal)) (name : Str)
    (s0 s1 t0 t1 u0 u1 : Session) (r1 : SourceRow) (q1 : ResourceRow) (e1 : ExpRow)
    (hs0 : s0.sources.countP (fun x => decide (x.filename = f ∧ x.md5sum = m)) = 0)
    (h1 : Source.get_or_create_add md5 disk f m s0 basedir = .ok (r1, s1))
    (hdisk : disk g = some c)
    (ht0 : t0.resources.countP (fun x => decide (x.filename = g ∧ x.md5sum = md5 c)) = 0)
    (h2 : Resource.get_or_create_add md5 disk g t0 = .ok (q1, t1))
    (hname : expectStr (jlookup ex_info (str "name")) = .ok name)
    (hu0 : u0.experiments.countP
      (fun e => decide (e.name = name ∧ e.md5sum = Experiment.payloadDigest md5 ex_info)) = 0)
    (h3 : Experiment.get_or_create md5 disk ex_info u0 = .ok (e1, u1)) :
    (Source.get_or_create_add md5 disk f m s1 basedir = .ok (r1, s1) ∧
      s1.sources.countP (fun x => decide (x.filename = f ∧ x.md5sum = m)) = 1) ∧
    (Resource.get_or_create_add md5 disk g t1 = .ok (q1, t1) ∧
      t1.resources.countP (fun x => decide (x.filename = g ∧ x.md5sum = md5 c)) = 1) ∧
    (Experiment.get_or_create md5 disk ex_info u1 = .ok (e1, u1) ∧
      u1.experiments.countP
        (fun e => decide (e.name = name ∧ e.md5sum = Experiment.payloadDigest md5 ex_info)) = 1) :=
  ⟨sourceGetOrCreateAdd_idem hs0 h1, resourceGetOrCreateAdd_idem hdisk ht0 h2,
    Experiment.get_or_create_idem hname hu0 h3⟩

theorem C1_get_or_create_idempotent_witness :
    (Session.empty.sources.countP
      (fun x => decide (x.filename = str "a.py" ∧ x.md5sum = str "body")) = 0) ∧
    (Source.get_or_create_add md5Id diskW (str "a.py") (str "body") Session.empty (str "/tmp") =
      .ok (srcRowW, s1W)) ∧
    (diskW (str "r.txt") = some (str "data")) ∧
    (Session.empty.resources.countP
      (fun x => decide (x.filename = str "r.txt" ∧ x.md5sum = md5Id (str "data"))) = 0) ∧
    (Resource.get_or_create_add md5Id diskW (str "r.txt") Session.empty = .ok (resRowW, t1W)) ∧
    (expectStr (jlookup exInfoW (str "name")) = .ok (str "exp")) ∧
    (Session.empty.experiments.countP (fun e => decide (e.name = str "exp" ∧
      e.md5sum = Experiment.payloadDigest md5Id exInfoW)) = 0) ∧
    (Experiment.get_or_create md5Id diskW exInfoW Session.empty = .ok (expRowW, u1W)) ∧
    ((Source.get_or_create_add md5Id diskW (str "a.py") (str "body") s1W (str "/tmp") =
        .ok (srcRowW, s1W) ∧
      s1W.sources.countP
        (fun x => decide (x.filename = str "a.py" ∧ x.md5sum = str "body")) = 1) ∧
    (Resource.get_or_create_add md5Id diskW (str "r.txt") t1W = .ok (resRowW, t1W) ∧
      t1W.resources.countP
        (fun x => decide (x.filename = str "r.txt" ∧ x.md5sum = md5Id (str "data"))) = 1) ∧
    (Experiment.get_or_create md5Id diskW exInfoW u1W = .ok (expRowW, u1W) ∧
      u1W.experiments.countP (fun e => decide (e.name = str "exp" ∧
        e.md5sum = Experiment.payloadDigest md5Id exInfoW)) = 1)) :=
  ⟨by decide, by decide, by decide, by decide, by decide, by decide, by decide, by decide,
    C1_get_or_create_idempotent md5Id diskW (str "a.py") (str "body") (str "/tmp")
      (str "r.txt") (str "data") exInfoW (str "exp") Session.empty s1W Session.empty t1W
      Session.empty u1W srcRowW resRowW expRowW (by decide) (by decide) (by decide)
      (by decide) (by decide) (by decide) (by decide) (by decide)⟩

/-- C3: when no `(filename, md5sum)` row exists and `basedir/filename` holds
content `c`, `Source.get_or_create` recomputes the digest of `c` and fails
with the integrity (md5-mismatch) error exactly when the recomputed digest
differs from the supplied one; on a match it returns a new row holding the
supplied filename and digest together with the file's full content. -/
theorem C3_source_integrity_check (md5 : Str → Str) (disk : Disk)
    (filename md5sum : Str) (session : Session) (basedir : Str) (c : Str)
    (hmiss : session.sources.find?
      (fun r => decide (r.filename = filename ∧ r.md5sum = md5sum)) = none)
    (hfile : disk (pathJoin basedir filename) = some c) :
    (Source.get_or_create md5 disk filename md5sum session basedir =
        .error (.md5Mismatch filename md5sum (md5 c)) ↔ md5 c ≠ md5sum) ∧
    (md5 c = md5sum →
      Source.get_or_create md5 disk filename md5sum session basedir =
        .ok ⟨filename, md5sum, c⟩) := by
  simp only [Source.get_or_create, get_digest, hmiss, hfile]
  by_cases h : md5 c = md5sum
  · subst h
    simp
  · simp [h, Ne.symm h]

theorem C3_source_integrity_check_witness :
    (Session.empty.sources.find?
      (fun r => decide (r.filename = str "a.py" ∧ r.md5sum = str "body")) = none) ∧
    ((fun p => if p = str "/tmp/a.py" then some (str "body") else none : Disk)
        (pathJoin (str "/tmp") (str "a.py")) = some (str "body")) ∧
    ((Source.get_or_create (fun s => s)
        (fun p => if p = str "/tmp/a.py" then some (str "body") else none)
        (str "a.py") (str "body") Session.empty (str "/tmp") =
        .error (.md5Mismatch (str "a.py") (str "body") (str "body")) ↔
          str "body" ≠ str "body") ∧
      (str "body" = str "body" →
        Source.get_or_create (fun s => s)
          (fun p => if p = str "/tmp/a.py" then some (str "body") else none)
          (str "a.py") (str "body") Session.empty (str "/tmp") =
          .ok ⟨str "a.py", str "body", str "body"⟩)) :=
  ⟨by decide, by decide,
    C3_source_integrity_check (fun s => s)
      (fun p => if p = str "/tmp/a.py" then some (str "body") else none)
      (str "a.py") (str "body") Session.empty (str "/tmp") (str "body")
      (by decide) (by decide)⟩

/-- C6 (amended): a `Source.get_or_create` hit returns the stored row with no
disk access — the result is the same for every disk state; for
`Resource.get_or_create` the digest is recomputed from the current on-disk
content before the lookup, and only the second read is skipped when
`(filename, recomputed digest)` matches an existing row, which is then
returned. -/
theorem C6_content_store_hit (md5 : Str → Str) (filename md5sum basedir : Str)
    (session : Session) (disk disk' : Disk) (rs : SourceRow) (rr : ResourceRow) (c : Str)
    (hs : session.sources.find?
      (fun x => decide (x.filename = filename ∧ x.md5sum = md5sum)) = some rs)
    (hd : disk filename = some c)
    (hr : session.resources.find?
      (fun x => decide (x.filename = filename ∧ x.md5sum = md5 c)) = some rr) :
    Source.get_or_create md5 disk filename md5sum session basedir = .ok rs ∧
    Source.get_or_create md5 disk' filename md5sum session basedir = .ok rs ∧
    Resource.get_or_create md5 disk filename session = .ok rr := by
  refine ⟨?_, ?_, ?_⟩
  · simp only [Source.get_or_create, hs]
  · simp only [Source.get_or_create, hs]
  · simp only [Resource.get_or_create, get_digest, hd, hr]

theorem C6_content_store_hit_witness :
    (({ Session.empty with
        sources := [⟨str "a.py", str "b", str "b"⟩],
        resources := [⟨str "a.py", str "x", str "x"⟩] } : Session).sources.find?
      (fun x => decide (x.filename = str "a.py" ∧ x.md5sum = str "b")) =
        some ⟨str "a.py", str "b", str "b"⟩) ∧
    ((fun p => if p = str "a.py" then some (str "x") else none : Disk) (str "a.py") =
      some (str "x")) ∧
    (({ Session.empty with
        sources := [⟨str "a.py", str "b", str "b"⟩],
        resources := [⟨str "a.py", str "x", str "x"⟩] } : Session).resources.find?
      (fun x => decide (x.filename = str "a.py" ∧ x.md5sum = (fun s => s : Str → Str) (str "x"))) =
        some ⟨str "a.py", str "x", str "x"⟩) ∧
    (Source.get_or_create (fun s => s)
        (fun p => if p = str "a.py" then some (str "x") else none) (str "a.py") (str "b")
        { Session.empty with
          sources := [⟨str "a.py", str "b", str "b"⟩],
          resources := [⟨str "a.py", str "x", str "x"⟩] } (str "/tmp") =
        .ok ⟨str "a.py", str "b", str "b"⟩ ∧
      Source.get_or_create (fun s => s)
        (fun p => if p = str "a.py" then some (str "zzz") else none) (str "a.py") (str "b")
        { Session.empty with
          sources := [⟨str "a.py", str "b", str "b"⟩],
          resources := [⟨str "a.py", str "x", str "x"⟩] } (str "/tmp") =
        .ok ⟨str "a.py", str "b", str "b"⟩ ∧
      Resource.get_or_create (fun s => s)
        (fun p => if p = str "a.py" then some (str "x") else none) (str "a.py")
        { Session.empty with
          sources := [⟨str "a.py", str "b", str "b"⟩],
          resources := [⟨str "a.py", str "x", str "x"⟩] } =
        .ok ⟨str "a.py", str "x", str "x"⟩) :=
  ⟨by decide, by decide, by decide,
    C6_content_store_hit (fun s => s) (str "a.py") (str "b") (str "/tmp")
      { Session.empty with
        sources := [⟨str "a.py", str "b", str "b"⟩],
        resources := [⟨str "a.py", str "x", str "x"⟩] }
      (fun p => if p = str "a.py" then some (str "x") else none)
      (fun p => if p = str "a.py" then some (str "zzz") else none)
      ⟨str "a.py", str "b", str "b"⟩ ⟨str "a.py", str "x", str "x"⟩ (str "x")
      (by decide) (by decide) (by decide)⟩

/-- C6 counterexample: the claim fails for `Resource.get_or_create`. With the
collision-free digest instantiation, a session already holding the resource
row for file `"r.txt"` with content `"old"`, and the on-disk content changed
to `"new"`, the call does not return the stored row (it recomputes the digest
from disk, misses, and builds a fresh row), so the result is not independent
of the current on-disk content. -/
theorem C6_content_store_hit_counterexample :
    (({ Session.empty with
        resources := [⟨str "r.txt", str "old", str "old"⟩] } : Session).resources.find?
      (fun x => decide (x.filename = str "r.txt" ∧ x.md5sum = str "old")) =
        some ⟨str "r.txt", str "old", str "old"⟩) ∧
    (Resource.get_or_create (fun s => s)
        (fun p => if p = str "r.txt" then some (str "new") else none) (str "r.txt")
        { Session.empty with resources := [⟨str "r.txt", str "old", str "old"⟩] }).toOption ≠
      some ⟨str "r.txt", str "old", str "old"⟩ ∧
    (Resource.get_or_create (fun s => s)
        (fun p => if p = str "r.txt" then some (str "new") else none) (str "r.txt")
        { Session.empty with resources := [⟨str "r.txt", str "old", str "old"⟩] }).toOption ≠
      (Resource.get_or_create (fun s => s)
        (fun p => if p = str "r.txt" then some (str "old") else none) (str "r.txt")
        { Session.empty with resources := [⟨str "r.txt", str "old", str "old"⟩] }).toOption := by
  refine ⟨by decide, by decide, by decide⟩

/-- C7 counterexample: the digest is `md5` of `json.dumps` of the payload
with no key sorting, so two payloads that are equal as mappings but differ in
key insertion order (`exInfoW` and `exInfoW2`, a permutation with identical
lookups at every key) digest differently, and a second call with the
reordered payload against the session already holding the first row stores a
second experiment row instead of hitting. -/
theorem C7_experiment_digest_counterexample :
    exInfoW.Perm exInfoW2 ∧
    (∀ k : Str, jlookup exInfoW k = jlookup exInfoW2 k) ∧
    Experiment.payloadDigest md5Id exInfoW ≠ Experiment.payloadDigest md5Id exInfoW2 ∧
    (Experiment.get_or_create md5Id diskW exInfoW2 u1W).toOption.map
      (fun p => p.2.experiments.length) = some 2 := by
  refine ⟨?_, ?_, by decide, by decide⟩
  · unfold exInfoW exInfoW2
    exact List.Perm.swap _ _ _
  · intro k
    unfold jlookup exInfoW exInfoW2
    by_cases hn : (str "name" : Str) = k
    · subst hn; rfl
    · by_cases hs : (str "sources" : Str) = k
      · subst hs; rfl
      · simp [List.find?_cons, hn, hs]

/-- C7 (amended): the identity digest is a deterministic function of the
serialized payload text: two payloads with the same `json.dumps`
serialization (in particular, equal mappings with the same key insertion
order) compute the same `(name, digest)` key; and on a hit the cached row is
returned with the session unchanged, so no new Dependency, Source, or
Repository rows are created. -/
theorem C7_experiment_digest_determinism (md5 : Str → Str) (disk : Disk)
    (e1 e2 : List (Str × JVal)) (s : Session) (name : Str) (row : ExpRow)
    (hser : jsonDumps (.obj e1) = jsonDumps (.obj e2))
    (hname : expectStr (jlookup e1 (str "name")) = .ok name)
    (hfind : s.experiments.find? (fun e => decide (e.name = name ∧
      e.md5sum = Experiment.payloadDigest md5 e1)) = some row) :
    Experiment.payloadDigest md5 e1 = Experiment.payloadDigest md5 e2 ∧
    Experiment.get_or_create md5 disk e1 s = .ok (row, s) :=
  ⟨congrArg md5 hser, by simp only [Experiment.get_or_create, hname, hfind]⟩

theorem C7_experiment_digest_determinism_witness :
    (jsonDumps (.obj exInfoW) = jsonDumps (.obj exInfoW)) ∧
    (expectStr (jlookup exInfoW (str "name")) = .ok (str "exp")) ∧
    (u1W.experiments.find? (fun e => decide (e.name = str "exp" ∧
      e.md5sum = Experiment.payloadDigest md5Id exInfoW)) = some expRowW) ∧
    (Experiment.payloadDigest md5Id exInfoW = Experiment.payloadDigest md5Id exInfoW ∧
      Experiment.get_or_create md5Id diskW exInfoW u1W = .ok (expRowW, u1W)) :=
  ⟨rfl, by decide, by decide,
    C7_experiment_digest_determinism md5Id diskW exInfoW exInfoW u1W (str "exp") expRowW
      rfl (by decide) (by decide)⟩

/-- C9 counterexample: the projection keys the run token as `"_id"`, not
`"run_token"`: at a concrete persisted run the key list does not contain
`"run_token"` but does contain `"_id"`. -/
theorem C9_run_projection_counterexample :
    str "run_token" ∉ objKeys (Run.to_json runW) ∧
    str "_id" ∈ objKeys (Run.to_json runW) := by
  exact ⟨by decide, by decide⟩

/-- C9 (amended): for every persisted run, `to_json` is a mapping with
exactly the keys `_id` (the run token), `command`, `start_time`, `heartbeat`,
`stop_time`, `queue_time`, `status`, `result`, `meta` (a mapping with keys
`comment` and `priority`), `resources`, `artifacts`, `metrics`, `host`,
`experiment`, `config`, `captured_out` and `fail_trace`, where the
collection keys hold the lists of the entities' projections and `host` and
`experiment` the nested projections of the referenced rows. -/
theorem C9_run_projection_shape (r : RunRow) :
    objKeys (Run.to_json r) = [str "_id", str "command", str "start_time", str "heartbeat",
      str "stop_time", str "queue_time", str "status", str "result", str "meta",
      str "resources", str "artifacts", str "metrics", str "host", str "experiment",
      str "config", str "captured_out", str "fail_trace"] ∧
    (objGet (Run.to_json r) (str "meta")).map objKeys = some [str "comment", str "priority"] ∧
    objGet (Run.to_json r) (str "_id") = some (.s r.run_id) ∧
    objGet (Run.to_json r) (str "resources") = some (.arr (r.resources.map Resource.to_json)) ∧
    objGet (Run.to_json r) (str "artifacts") = some (.arr (r.artifacts.map Artifact.to_json)) ∧
    objGet (Run.to_json r) (str "metrics") = some (.arr (r.metrics.map Metric.to_json)) ∧
    objGet (Run.to_json r) (str "host") = some (Host.to_json r.host) ∧
    objGet (Run.to_json r) (str "experiment") = some (Experiment.to_json r.experiment) :=
  ⟨rfl, rfl, rfl, rfl, rfl, rfl, rfl, rfl⟩

/-- C5: the `depends_on` set of a metric built by `Metric.create` references
exactly the metrics already persisted for the same run whose names appear in
the given dependency-name list; names matching no metric of that run —
another run's metrics, forward references — contribute nothing, and the call
is total (it returns a row, never an error). -/
theorem C5_metric_dependency_resolution (run_id metric_name : Str) (info : MetricInfo)
    (session : Session) (id : Nat) :
    id ∈ (Metric.create run_id metric_name info session).depends_on ↔
      ∃ mr, mr ∈ session.metrics ∧ mr.metric_id = id ∧ mr.run_id = run_id ∧
        mr.name ∈ info.depends_on := by
  show id ∈ (session.metrics.filter (fun mr => decide (mr.run_id = run_id) &&
      info.depends_on.contains mr.name)).map (·.metric_id) ↔ _
  simp only [List.mem_map, List.mem_filter, Bool.and_eq_true, decide_eq_true_eq]
  constructor
  · rintro ⟨mr, ⟨hmem, hrun, hcont⟩, hid⟩
    exact ⟨mr, hmem, hid, hrun, by simpa using hcont⟩
  · rintro ⟨mr, hmem, hid, hrun, hname⟩
    exact ⟨mr, ⟨hmem, hrun, by simpa using hname⟩, hid⟩

theorem Metric.appendTo_of_neg {run mn : Str} {info : MetricInfo} {ids : List Nat}
    {mr : MetricRow} (h : ¬(mr.run_id = run ∧ mr.name = mn)) :
    Metric.appendTo run mn info ids mr = mr := by
  unfold Metric.appendTo; rw [if_neg h]

theorem Metric.appendTo_run_id (run mn : Str) (info : MetricInfo) (ids : List Nat)
    (mr : MetricRow) : (Metric.appendTo run mn info ids mr).run_id = mr.run_id := by
  unfold Metric.appendTo; split <;> rfl

theorem Metric.appendTo_name (run mn : Str) (info : MetricInfo) (ids : List Nat)
    (mr : MetricRow) : (Metric.appendTo run mn info ids mr).name = mr.name := by
  unfold Metric.appendTo; split <;> rfl

theorem Metric.appendTo_steps_of_pos {run mn : Str} {info : MetricInfo} {ids : List Nat}
    {mr : MetricRow} (h : mr.run_id = run ∧ mr.name = mn) :
    (Metric.appendTo run mn info ids mr).steps = mr.steps ++ info.steps := by
  unfold Metric.appendTo; rw [if_pos h]

theorem Metric.appendTo_values_of_pos {run mn : Str} {info : MetricInfo} {ids : List Nat}
    {mr : MetricRow} (h : mr.run_id = run ∧ mr.name = mn) :
    (Metric.appendTo run mn info ids mr).values = mr.values ++ info.values := by
  unfold Metric.appendTo; rw [if_pos h]

theorem Metric.appendTo_timestamps_of_pos {run mn : Str} {info : MetricInfo} {ids : List Nat}
    {mr : MetricRow} (h : mr.run_id = run ∧ mr.name = mn) :
    (Metric.appendTo run mn info ids mr).timestamps = mr.timestamps ++ info.timestamps := by
  unfold Metric.appendTo; rw [if_pos h]

theorem filter_map_invariant {α : Type} (f : α → α) (p : α → Bool)
    (h1 : ∀ x, p x = true → f x = x) (h2 : ∀ x, p (f x) = p x) :
    ∀ l : List α, (l.map f).filter p = l.filter p := by
  intro l
  induction l with
  | nil => rfl
  | cons a l ih =>
    cases hp : p a with
    | true =>
      simp only [List.map_cons, List.filter_cons, h2 a, hp, if_true]
      rw [h1 a hp, ih]
    | false =>
      simp only [List.map_cons, List.filter_cons, h2 a, hp, Bool.false_eq_true, if_false]
      exact ih

/-- C4: metric rows are isolated per run: an append for a run leaves the
metric rows of every other run exactly unchanged (so no other run's rows are
reused or extended even when names repeat), and the two-run scenario of the
tests — two runs each logging the same two metric names — stores 4 rows. -/
theorem C4_cross_run_metric_isolation :
    (∀ (run metric_name : Str) (info : MetricInfo) (s : Session),
      (Metric.log run metric_name info s).metrics.filter
          (fun mr => !decide (mr.run_id = run)) =
        s.metrics.filter (fun mr => !decide (mr.run_id = run))) ∧
    (Metric.logBatch (str "run2") [(str "m1", infoW), (str "m2", infoW)]
        (Metric.logBatch (str "run1") [(str "m1", infoW), (str "m2", infoW)]
          Session.empty)).metrics.length = 4 := by
  constructor
  · intro run mn info s
    unfold Metric.log
    split
    · show (s.metrics.map _).filter _ = _
      apply filter_map_invariant
      · intro x hx
        have hxr : ¬(x.run_id = run) := by simpa using hx
        exact Metric.appendTo_of_neg (fun hcond => hxr hcond.1)
      · intro x
        rw [Metric.appendTo_run_id]
    · show (s.metrics ++ [Metric.create run mn info s]).filter _ = _
      rw [List.filter_append]
      have hone : [Metric.create run mn info s].filter
          (fun mr => !decide (mr.run_id = run)) = [] := by
        simp [Metric.create]
      rw [hone, List.append_nil]
  · decide

theorem find?_singleton_of_pos {α : Type} (p : α → Bool) {a : α} (h : p a = true) :
    List.find? p [a] = some a := by
  simp [List.find?_cons, h]

theorem countP_singleton_of_pos {α : Type} (p : α → Bool) {a : α} (h : p a = true) :
    List.countP p [a] = 1 := by
  simp [List.countP_cons, h]

theorem Metric.log_create_branch {run mn : Str} {info : MetricInfo} {s : Session}
    (hnone : s.metrics.find? (fun mr => decide (mr.run_id = run ∧ mr.name = mn)) = none) :
    Metric.log run mn info s = { s with
        metrics := s.metrics ++ [Metric.create run mn info s]
        nextMetricId := s.nextMetricId + 1 } := by
  unfold Metric.log
  rw [hnone]

theorem Metric.log_append_branch {run mn : Str} {info : MetricInfo} {s : Session}
    {row : MetricRow}
    (hfind : s.metrics.find? (fun mr => decide (mr.run_id = run ∧ mr.name = mn)) = some row) :
    Metric.log run mn info s = { s with
        metrics := s.metrics.map
          (Metric.appendTo run mn info (Metric.resolveDepIds run info.depends_on s)) } := by
  unfold Metric.log
  rw [hfind]

theorem countP_map_appendTo_zero {run mn : Str} {info : MetricInfo} {ids : List Nat}
    {l : List MetricRow}
    (h : l.countP (fun mr => decide (mr.run_id = run ∧ mr.name = mn)) = 0) :
    (l.map (Metric.appendTo run mn info ids)).countP
      (fun mr => decide (mr.run_id = run ∧ mr.name = mn)) = 0 := by
  rw [List.countP_eq_zero] at h ⊢
  intro x hx
  obtain ⟨y, hy, rfl⟩ := List.mem_map.mp hx
  have hyn := h y hy
  simp only [decide_eq_true_eq] at hyn ⊢
  rw [Metric.appendTo_run_id, Metric.appendTo_name]
  exact hyn

theorem find?_map_appendTo_none {run mn : Str} {info : MetricInfo} {ids : List Nat}
    {l : List MetricRow}
    (h : l.countP (fun mr => decide (mr.run_id = run ∧ mr.name = mn)) = 0) :
    (l.map (Metric.appendTo run mn info ids)).find?
      (fun mr => decide (mr.run_id = run ∧ mr.name = mn)) = none :=
  find?_eq_none_of_countP_zero _ (countP_map_appendTo_zero h)

theorem appendTo_pred_of_pos {run mn : Str} {info : MetricInfo} {ids : List Nat}
    {mr : MetricRow} (h : mr.run_id = run ∧ mr.name = mn) :
    (fun x => decide (x.run_id = run ∧ x.name = mn)) (Metric.appendTo run mn info ids mr) =
      true := by
  simp only [decide_eq_true_eq]
  rw [Metric.appendTo_run_id, Metric.appendTo_name]
  exact h

/-- C2: from a store with no `(run, "m")` row, logging steps `[10, 20, 30]`
and then steps `[40, 50, 60]` for the same run and name (with chronologically
non-decreasing timestamps across the batches) yields exactly one Metric row
for `(run, "m")`, whose steps are `[10, 20, 30, 40, 50, 60]`, whose values
and timestamps are the concatenations of the two batches in insertion order,
and whose timestamps are monotonically non-decreasing; the first batch's
elements remain as the prefix, never overwritten. -/
theorem C2_metric_append_law (run : Str) (s0 : Session) (u1 u2 : Str)
    (d1 d2 : List Str) (v1 v2 : List Int) (t1 t2 : List Nat)
    (hmiss : s0.metrics.countP
      (fun mr => decide (mr.run_id = run ∧ mr.name = str "m")) = 0)
    (hchron : nondecreasing (t1 ++ t2) = true) :
    (Metric.log run (str "m") ⟨d2, u2, [40, 50, 60], v2, t2⟩
        (Metric.log run (str "m") ⟨d1, u1, [10, 20, 30], v1, t1⟩ s0)).metrics.countP
      (fun mr => decide (mr.run_id = run ∧ mr.name = str "m")) = 1 ∧
    (∃ mr, (Metric.log run (str "m") ⟨d2, u2, [40, 50, 60], v2, t2⟩
        (Metric.log run (str "m") ⟨d1, u1, [10, 20, 30], v1, t1⟩ s0)).metrics.find?
        (fun mr => decide (mr.run_id = run ∧ mr.name = str "m")) = some mr ∧
      mr.steps = [10, 20, 30, 40, 50, 60] ∧ mr.values = v1 ++ v2 ∧
      mr.timestamps = t1 ++ t2 ∧ nondecreasing mr.timestamps = true) := by
  have hnone := find?_eq_none_of_countP_zero _ hmiss
  rw [Metric.log_create_branch hnone]
  set row1 := Metric.create run (str "m") ⟨d1, u1, [10, 20, 30], v1, t1⟩ s0 with hrow1
  have hprops : row1.run_id = run ∧ row1.name = str "m" := by
    rw [hrow1]; exact ⟨rfl, rfl⟩
  have hfind1 : ({ s0 with
      metrics := s0.metrics ++ [row1]
      nextMetricId := s0.nextMetricId + 1 } : Session).metrics.find?
      (fun mr => decide (mr.run_id = run ∧ mr.name = str "m")) = some row1 := by
    show (s0.metrics ++ [row1]).find? _ = some row1
    rw [List.find?_append, hnone]
    simp only [Option.none_or]
    exact find?_singleton_of_pos _ (by simp [hprops.1, hprops.2])
  rw [Metric.log_append_branch hfind1]
  constructor
  · show ((s0.metrics ++ [row1]).map _).countP _ = 1
    rw [List.map_append, List.countP_append, countP_map_appendTo_zero hmiss,
      List.map_cons, List.map_nil,
      countP_singleton_of_pos (fun mr : MetricRow => decide (mr.run_id = run ∧ mr.name = str "m"))
        (appendTo_pred_of_pos hprops)]
  · refine ⟨Metric.appendTo run (str "m") ⟨d2, u2, [40, 50, 60], v2, t2⟩
      (Metric.resolveDepIds run d2
        { s0 with
            metrics := s0.metrics ++ [row1]
            nextMetricId := s0.nextMetricId + 1 }) row1, ?_, ?_, ?_, ?_, ?_⟩
    · show ((s0.metrics ++ [row1]).map _).find? _ = some _
      rw [List.map_append, List.find?_append, find?_map_appendTo_none hmiss]
      simp only [Option.none_or, List.map_cons, List.map_nil]
      exact find?_singleton_of_pos
        (fun mr : MetricRow => decide (mr.run_id = run ∧ mr.name = str "m"))
        (appendTo_pred_of_pos hprops)
    · rw [Metric.appendTo_steps_of_pos hprops, hrow1]
      rfl
    · rw [Metric.appendTo_values_of_pos hprops, hrow1]
      rfl
    · rw [Metric.appendTo_timestamps_of_pos hprops, hrow1]
      rfl
    · rw [Metric.appendTo_timestamps_of_pos hprops, hrow1]
      exact hchron

theorem C2_metric_append_law_witness :
    (Session.empty.metrics.countP
      (fun mr => decide (mr.run_id = str "r" ∧ mr.name = str "m")) = 0) ∧
    (nondecreasing ([0, 1, 2] ++ [3, 4, 5]) = true) ∧
    ((Metric.log (str "r") (str "m") ⟨[], str "", [40, 50, 60], [10, 20, 30], [3, 4, 5]⟩
        (Metric.log (str "r") (str "m") ⟨[], str "", [10, 20, 30], [1, 2, 3], [0, 1, 2]⟩
          Session.empty)).metrics.countP
      (fun mr => decide (mr.run_id = str "r" ∧ mr.name = str "m")) = 1 ∧
    (∃ mr, (Metric.log (str "r") (str "m")
          ⟨[], str "", [40, 50, 60], [10, 20, 30], [3, 4, 5]⟩
        (Metric.log (str "r") (str "m") ⟨[], str "", [10, 20, 30], [1, 2, 3], [0, 1, 2]⟩
          Session.empty)).metrics.find?
        (fun mr => decide (mr.run_id = str "r" ∧ mr.name = str "m")) = some mr ∧
      mr.steps = [10, 20, 30, 40, 50, 60] ∧ mr.values = [1, 2, 3] ++ [10, 20, 30] ∧
      mr.timestamps = [0, 1, 2] ++ [3, 4, 5] ∧ nondecreasing mr.timestamps = true)) :=
  ⟨by decide, by decide,
    C2_metric_append_law (str "r") Session.empty (str "") (str "") [] []
      [1, 2, 3] [10, 20, 30] [0, 1, 2] [3, 4, 5] (by decide) (by decide)⟩

theorem foldl_heartbeat_fields : ∀ (l : List HBPayload) (r : RunRow) (hne : l ≠ []),
    ((l.foldl (fun a p => heartbeat_event p a) r).result = some (l.getLast hne).result ∧
      (l.foldl (fun a p => heartbeat_event p a) r).info =
        some (jsonDumps (l.getLast hne).info) ∧
      (l.foldl (fun a p => heartbeat_event p a) r).heartbeat =
        some (l.getLast hne).beat_time ∧
      (l.foldl (fun a p => heartbeat_event p a) r).captured_out =
        some (r.captured_out.getD [] ++ (l.map (·.chunk)).flatten))
  | [], _, hne => absurd rfl hne
  | [p], r, _ => by
    refine ⟨rfl, rfl, rfl, ?_⟩
    show some (r.captured_out.getD [] ++ p.chunk) = _
    simp
  | p :: q :: l, r, _ => by
    have ih := foldl_heartbeat_fields (q :: l) (heartbeat_event p r) (List.cons_ne_nil q l)
    rw [List.foldl_cons]
    refine ⟨?_, ?_, ?_, ?_⟩
    · rw [ih.1, List.getLast_cons (List.cons_ne_nil q l)]
    · rw [ih.2.1, List.getLast_cons (List.cons_ne_nil q l)]
    · rw [ih.2.2.1, List.getLast_cons (List.cons_ne_nil q l)]
    · rw [ih.2.2.2]
      show some ((r.captured_out.getD [] ++ p.chunk) ++ _) = _
      simp [List.append_assoc]

theorem foldl_heartbeat_cout : ∀ (chunks : List Str) (st : CoutState),
    st.cout_write_cursor = st.cout.length →
    (chunks.foldl heartbeat_cout st).attachment = st.attachment ++ chunks.flatten
  | [], st, _ => by simp
  | c :: cs, st, h => by
    rw [List.foldl_cons, foldl_heartbeat_cout cs (heartbeat_cout st c) rfl]
    show (st.attachment ++ (st.cout ++ c).drop st.cout_write_cursor) ++ cs.flatten = _
    rw [h, List.drop_left]
    simp [List.append_assoc]

/-- C8: heartbeat is repeatable: after any nonempty sequence of heartbeat
calls the run row's result, serialized info and heartbeat time reflect the
last call's payload (last write wins), while the stored captured output is
the previously stored output followed by all supplied chunks concatenated in
call order; likewise the in-source `save_cout` accumulates `cout.txt` as the
concatenation of all captured chunks, appending and never replacing. -/
theorem C8_heartbeat_repeatable (r : RunRow) (l : List HBPayload) (hne : l ≠ [])
    (st : CoutState) (chunks : List Str) (hcur : st.cout_write_cursor = st.cout.length) :
    ((l.foldl (fun a p => heartbeat_event p a) r).result = some (l.getLast hne).result ∧
      (l.foldl (fun a p => heartbeat_event p a) r).info =
        some (jsonDumps (l.getLast hne).info) ∧
      (l.foldl (fun a p => heartbeat_event p a) r).heartbeat =
        some (l.getLast hne).beat_time ∧
      (l.foldl (fun a p => heartbeat_event p a) r).captured_out =
        some (r.captured_out.getD [] ++ (l.map (·.chunk)).flatten)) ∧
    (chunks.foldl heartbeat_cout st).attachment = st.attachment ++ chunks.flatten :=
  ⟨foldl_heartbeat_fields l r hne, foldl_heartbeat_cout chunks st hcur⟩

theorem C8_heartbeat_repeatable_witness :
    (([p1W, p2W] : List HBPayload) ≠ []) ∧
    (st0W.cout_write_cursor = st0W.cout.length) ∧
    ((([p1W, p2W].foldl (fun a p => heartbeat_event p a) runW).result =
        some (([p1W, p2W].getLast (List.cons_ne_nil p1W [p2W])).result) ∧
      ([p1W, p2W].foldl (fun a p => heartbeat_event p a) runW).info =
        some (jsonDumps (([p1W, p2W].getLast (List.cons_ne_nil p1W [p2W])).info)) ∧
      ([p1W, p2W].foldl (fun a p => heartbeat_event p a) runW).heartbeat =
        some (([p1W, p2W].getLast (List.cons_ne_nil p1W [p2W])).beat_time) ∧
      ([p1W, p2W].foldl (fun a p => heartbeat_event p a) runW).captured_out =
        some (runW.captured_out.getD [] ++ ([p1W, p2W].map (·.chunk)).flatten)) ∧
    ([str "a", str "b"].foldl heartbeat_cout st0W).attachment =
      st0W.attachment ++ [str "a", str "b"].flatten) :=
  ⟨List.cons_ne_nil p1W [p2W], rfl,
    C8_heartbeat_repeatable runW [p1W, p2W] (List.cons_ne_nil p1W [p2W]) st0W
      [str "a", str "b"] rfl⟩

theorem C10_dependency_round_trip_witness :
    (∃ n v, str "numpy==1.26" = n ++ '=' :: '=' :: v) ∧
    (∃ p, Dependency.partitionEq (str "numpy==1.26") = some p ∧
      (Dependency.get_or_create (str "numpy==1.26") Session.empty).name = p.1 ∧
      (Dependency.get_or_create (str "numpy==1.26") Session.empty).version = p.2 ∧
      Dependency.to_json (Dependency.get_or_create (str "numpy==1.26") Session.empty) =
        str "numpy==1.26") :=
  ⟨⟨str "numpy", str "1.26", by decide⟩,
    C10_dependency_round_trip (str "numpy==1.26") Session.empty
      ⟨str "numpy", str "1.26", by decide⟩⟩

end Sacred
